import Mathlib

/-!
Shallow embedding of the OpenSky ETL script (`sky_data_etl.py`).

Modelling conventions:
* A raw JSON scalar (null / string / number / boolean) is a `PyVal`.
  Numbers are modelled by `ℚ` (we study the defaulting and aggregation
  logic, not binary floating-point rounding).
* Python truthiness (`if value:`) is `truthy`.
* `datetime` values are modelled by `ℚ` (epoch seconds); the conversion
  `datetime.fromtimestamp` is the identity on that representation, and
  every wall-clock read (`datetime.now()`, `current_timestamp()`) is an
  explicit `now : ℚ` parameter of the function that performs it.
* The Spark DataFrame produced by `createDataFrame(data, schema)` is a
  `List Row` whose fields are `Option`-typed (nullable per the schema);
  schema verification is performed by the external engine and is out of
  the modelled core.
* Cassandra and the HTTP transport are external; `extract` consumes an
  already-received `Response`.
* The source's `except (ValueError, TypeError)` clauses do not catch
  `OverflowError`, so the coercions are not total. Each coercion is
  embedded twice: a plain function on the in-range fragment where no
  uncaught error occurs (`safe_float_convert`, `safe_timestamp_convert`,
  used by the claims about the field mapping), and a checked `...E`
  version carrying the full error behavior, with agreement lemmas
  relating the two on the in-range fragment.
-/

/-- The scalar values that can appear in an OpenSky state vector. -/
inductive PyVal where
  | none
  | str (s : String)
  | int (n : Int)
  | float (q : ℚ)
  | bool (b : Bool)
deriving DecidableEq, Repr

/-- Python truthiness: `bool(v)` for a scalar `v`. -/
def truthy : PyVal → Bool
  | .none => false
  | .str s => !s.isEmpty
  | .int n => if n = 0 then false else true
  | .float q => if q = 0 then false else true
  | .bool b => b

/-- Python `str(v)` for a scalar `v` (the float case prints the rational
value; claims never depend on the exact digits of a float rendering). -/
def pyStr : PyVal → String
  | .none => "None"
  | .str s => s
  | .int n => toString n
  | .float q => toString q
  | .bool b => if b then "True" else "False"

/-- Remove leading and trailing whitespace from a character list. -/
def stripChars (cs : List Char) : List Char :=
  ((cs.dropWhile Char.isWhitespace).reverse.dropWhile Char.isWhitespace).reverse

/-- Model of Python's `str.strip()` with no argument: surrounding
whitespace removed. -/
def pyStrip (s : String) : String :=
  String.mk (stripChars s.data)

/-- Accumulate a digit string into a natural number. -/
def digitsToNat (cs : List Char) : Nat :=
  cs.foldl (fun a c => a * 10 + (c.toNat - 48)) 0

/-- A Python digit group: non-empty, digits with single underscores
allowed strictly between digits (`1_000` is valid, `_1`, `1_`, `1__0`
are not). -/
def validDigitsU (cs : List Char) : Bool :=
  !cs.isEmpty &&
  cs.all (fun c => c.isDigit || c = '_') &&
  (cs.head?.elim false Char.isDigit) &&
  (cs.getLast?.elim false Char.isDigit) &&
  ((cs.zip cs.tail).all fun p => !(p.1 = '_' && p.2 = '_'))

/-- Split a character list at the first character satisfying `p`:
the part before it, and the part after it when it occurs. -/
def splitAtChar (p : Char → Bool) (cs : List Char) : List Char × Option (List Char) :=
  let before := cs.takeWhile (fun c => !(p c))
  match cs.dropWhile (fun c => !(p c)) with
  | [] => (before, Option.none)
  | _ :: after => (before, Option.some after)

/-- Parse an exponent part (after `e`/`E`): optional sign, digit group. -/
def parseExp (cs : List Char) : Option Int :=
  match cs with
  | '+' :: ds =>
      if validDigitsU ds then Option.some (digitsToNat (ds.filter Char.isDigit) : Int)
      else Option.none
  | '-' :: ds =>
      if validDigitsU ds then Option.some (-(digitsToNat (ds.filter Char.isDigit) : Int))
      else Option.none
  | ds =>
      if validDigitsU ds then Option.some (digitsToNat (ds.filter Char.isDigit) : Int)
      else Option.none

/-- Parse a mantissa: a digit group, with an optional decimal point and
digit group on either side of it (at least one side present). -/
def parseMantissa (cs : List Char) : Option ℚ :=
  match splitAtChar (· = '.') cs with
  | (ip, Option.none) =>
      if validDigitsU ip then Option.some (digitsToNat (ip.filter Char.isDigit) : ℚ)
      else Option.none
  | (ip, Option.some fp) =>
      if (ip.isEmpty || validDigitsU ip) && (fp.isEmpty || validDigitsU fp) &&
          !(ip.isEmpty && fp.isEmpty) then
        Option.some ((digitsToNat (ip.filter Char.isDigit) : ℚ) +
          (digitsToNat (fp.filter Char.isDigit) : ℚ) /
            ((10 : ℚ) ^ (fp.filter Char.isDigit).length))
      else Option.none

/-- Parse an unsigned Python float literal: mantissa with an optional
`e`/`E` exponent, the failure case standing for Python's `ValueError`. -/
def parseUnsignedPyFloat (cs : List Char) : Option ℚ :=
  match splitAtChar (fun c => c = 'e' || c = 'E') cs with
  | (mant, Option.none) => parseMantissa mant
  | (mant, Option.some ecs) =>
      match parseMantissa mant, parseExp ecs with
      | Option.some m, Option.some e => Option.some (m * (10 : ℚ) ^ e)
      | _, _ => Option.none

/-- Model of Python's `float(str)` on finite numeric literals:
surrounding whitespace stripped, optional sign, digit groups with
underscores, optional fraction and exponent (`float('1e3') = 1000.0`,
`float('1_0.5') = 10.5`). Literals denoting non-finite doubles
(`inf`/`nan`, and finite-looking literals such as `1e400` that round to
infinity without raising) are outside the ℚ number model declared above
and map to the failure case. -/
def pyParseFloat (s : String) : Option ℚ :=
  match stripChars s.data with
  | '+' :: cs => parseUnsignedPyFloat cs
  | '-' :: cs => (parseUnsignedPyFloat cs).map Neg.neg
  | cs => parseUnsignedPyFloat cs

/-- Model of Python's `float(v)` builtin restricted to the in-range
fragment: `Option.none` stands for a raised `ValueError`/`TypeError`
(`float(None)` raises `TypeError`; booleans are numeric,
`float(True) = 1.0`). `float(int)` additionally raises an OverflowError
at magnitudes at or beyond 2^1024; that escaping path, which this
fragment omits, is carried by `pyFloatE` below. -/
def pyFloat : PyVal → Option ℚ
  | .none => Option.none
  | .str s => pyParseFloat s
  | .int n => Option.some (n : ℚ)
  | .float q => Option.some q
  | .bool b => Option.some (if b then 1 else 0)

/-- `safe_float_convert` (sky_data_etl.py lines 83-90) on its in-range
fragment: `None ↦ 0.0`, otherwise `float(value)` with
`ValueError`/`TypeError` caught to `0.0`. The source function is not
total: `float(10**400)` raises an OverflowError that the `except`
clause does not catch; the full behavior with that escaping error path
is `safe_float_convertE` below. -/
def safe_float_convert (value : PyVal) : ℚ :=
  match value with
  | .none => 0
  | v => (pyFloat v).getD 0

/-- `safe_bool_convert` (lines 92-94): `bool(value) if value is not None
else False`. -/
def safe_bool_convert (value : PyVal) : Bool :=
  match value with
  | .none => false
  | v => truthy v

/-- Model of the numeric-epoch argument accepted by
`datetime.fromtimestamp`, restricted to epochs within datetime's
representable range: numbers (ints, floats, bools) convert, anything
else raises `TypeError` (`Option.none`); within range the conversion is
the identity on our `ℚ` epoch representation. The real
`fromtimestamp` also raises a caught ValueError outside years 1..9999
and an uncaught OverflowError beyond the platform `time_t`; both paths
are carried by `fromtimestampE`/`pyEpochE` below. -/
def pyEpoch : PyVal → Option ℚ
  | .int n => Option.some (n : ℚ)
  | .float q => Option.some q
  | .bool b => Option.some (if b then 1 else 0)
  | _ => Option.none

/-- `safe_timestamp_convert` (lines 96-101) on its in-range fragment:
`datetime.fromtimestamp(timestamp) if timestamp else datetime.now()`
with `ValueError`/`TypeError` caught to `datetime.now()`; `now` is the
wall-clock value read by `datetime.now()`. The source function returns
`now` for epochs outside datetime's year range (caught ValueError) and
raises an uncaught OverflowError beyond the `time_t` range; the full
behavior is `safe_timestamp_convertE` below. -/
def safe_timestamp_convert (now : ℚ) (timestamp : PyVal) : ℚ :=
  if truthy timestamp then
    match pyEpoch timestamp with
    | Option.some q => q
    | Option.none => now
  else now

/-- A raw OpenSky state vector: 17 positionally-significant scalars. -/
def StateVec : Type := Fin 17 → PyVal

instance : DecidableEq StateVec :=
  inferInstanceAs (DecidableEq (Fin 17 → PyVal))

/-- The typed flight record built by `extract` (lines 119-137). -/
structure FlightRecord where
  icao24 : String
  callsign : String
  origin_country : String
  time_position : ℚ
  last_contact : ℚ
  longitude : ℚ
  latitude : ℚ
  baro_altitude : ℚ
  on_ground : Bool
  velocity : ℚ
  true_track : ℚ
  vertical_rate : ℚ
  geo_altitude : ℚ
  squawk : String
  spi : Bool
  position_source : String
  ingestion_time : ℚ
deriving DecidableEq, Repr

/-- The record-construction body of `extract` (lines 119-137), for one kept
state vector; `now` is the run's wall clock (`current_time` and the
`datetime.now()` fallbacks inside the coercions). -/
def mkFlight (now : ℚ) (s : StateVec) : FlightRecord where
  icao24 := pyStr (s 0)
  callsign := if truthy (s 1) then pyStrip (pyStr (s 1)) else "UNKNOWN"
  origin_country := if truthy (s 2) then pyStr (s 2) else "UNKNOWN"
  time_position := safe_timestamp_convert now (s 3)
  last_contact := safe_timestamp_convert now (s 4)
  longitude := safe_float_convert (s 5)
  latitude := safe_float_convert (s 6)
  baro_altitude := safe_float_convert (s 7)
  on_ground := safe_bool_convert (s 8)
  velocity := safe_float_convert (s 9)
  true_track := safe_float_convert (s 10)
  vertical_rate := safe_float_convert (s 11)
  geo_altitude := safe_float_convert (s 13)
  squawk := if truthy (s 14) then pyStr (s 14) else "UNKNOWN"
  spi := safe_bool_convert (s 15)
  position_source := if truthy (s 16) then pyStr (s 16) else "UNKNOWN"
  ingestion_time := now

/-- The extraction loop (lines 114-138): `if not state[0]: continue`, else
append the built record. -/
def extractFlights (now : ℚ) (states : List StateVec) : List FlightRecord :=
  states.filterMap (fun s => if truthy (s 0) then Option.some (mkFlight now s) else Option.none)

/-- The already-received HTTP response consumed by `extract`:
`data.get('states', [])` makes a missing key indistinguishable from `[]`. -/
structure Response where
  status_code : Nat
  states : List StateVec

/-- `extract` (lines 103-140): raises unless the status code is 200, then
maps the state vectors; `Except.error` stands for the raised exception. -/
def extract (resp : Response) (now : ℚ) : Except String (List FlightRecord) :=
  if resp.status_code ≠ 200 then
    Except.error ("API request failed with status code: " ++ toString resp.status_code)
  else
    Except.ok (extractFlights now resp.states)

/-- A row of the DataFrame built by `createDataFrame(data, schema)`
(lines 20-38, 144): every schema field nullable, hence `Option`-typed. -/
structure Row where
  icao24 : Option String
  callsign : Option String
  origin_country : Option String
  time_position : Option ℚ
  last_contact : Option ℚ
  longitude : Option ℚ
  latitude : Option ℚ
  baro_altitude : Option ℚ
  on_ground : Option Bool
  velocity : Option ℚ
  true_track : Option ℚ
  vertical_rate : Option ℚ
  geo_altitude : Option ℚ
  squawk : Option String
  spi : Option Bool
  position_source : Option String
  ingestion_time : Option ℚ
deriving DecidableEq, Repr

/-- Transform step 1 (lines 146-151): `df.na.fill` over the four string
columns, replacing nulls by "UNKNOWN". -/
def na_fill_strings (r : Row) : Row :=
  { r with
    callsign := Option.some (r.callsign.getD "UNKNOWN")
    origin_country := Option.some (r.origin_country.getD "UNKNOWN")
    squawk := Option.some (r.squawk.getD "UNKNOWN")
    position_source := Option.some (r.position_source.getD "UNKNOWN") }

/-- Transform step 2 (lines 153-155): `na.fill({col: 0.0})` for every
`DoubleType` column of the schema. -/
def na_fill_numeric (r : Row) : Row :=
  { r with
    longitude := Option.some (r.longitude.getD 0)
    latitude := Option.some (r.latitude.getD 0)
    baro_altitude := Option.some (r.baro_altitude.getD 0)
    velocity := Option.some (r.velocity.getD 0)
    true_track := Option.some (r.true_track.getD 0)
    vertical_rate := Option.some (r.vertical_rate.getD 0)
    geo_altitude := Option.some (r.geo_altitude.getD 0) }

/-- Transform step 3 (lines 157-161): `coalesce(col, current_timestamp())`
for `time_position` and `last_contact`; `now` is the transform-time clock. -/
def backfill_timestamps (now : ℚ) (r : Row) : Row :=
  { r with
    time_position := Option.some (r.time_position.getD now)
    last_contact := Option.some (r.last_contact.getD now) }

/-- Transform step 4's predicate (lines 163-167): `icao24`,
`time_position` and `ingestion_time` all non-null. -/
def validRow (r : Row) : Bool :=
  r.icao24.isSome && r.time_position.isSome && r.ingestion_time.isSome

/-- Steps 1-3 of `transform` applied to the whole batch. -/
def defaultSteps (now : ℚ) (data : List Row) : List Row :=
  ((data.map na_fill_strings).map na_fill_numeric).map (backfill_timestamps now)

/-- `transform` (lines 142-169): defaulting steps then the validity
filter. Total: the fills, coalesce and filter have no failure path. -/
def transform (now : ℚ) (data : List Row) : List Row :=
  (defaultSteps now data).filter validRow

/-- One per-column descriptor of `calculate_statistics` (lines 176-185). -/
structure ColStats where
  mean : Option ℚ
  min : Option ℚ
  max : Option ℚ
  count : Nat
  mode : Option ℚ
deriving DecidableEq, Repr

/-- The most-frequent grouping key of
`df.groupBy(column).count().orderBy(col('count').desc()).first()`
(line 184). The engine's ordering among equal counts is unspecified; we
fix the deterministic tie-break "first occurrence in the batch wins"
(`List.argmax` keeps the earliest maximiser). -/
def modeKey (vals : List (Option ℚ)) : Option (Option ℚ) :=
  vals.argmax (fun v => vals.count v)

/-- The descriptor computed for one double column (lines 176-185): the SQL
aggregates `avg`, `min`, `max`, `count` ignore nulls; the mode is the
most frequent grouping key, `null` when the batch is empty
(`mode_result[column] if mode_result else None`). -/
def colStats (vals : List (Option ℚ)) : ColStats :=
  let xs := vals.reduceOption
  { mean := if xs.length = 0 then Option.none else Option.some (xs.sum / (xs.length : ℚ))
    min := xs.argmin id
    max := xs.argmax id
    count := xs.length
    mode := (modeKey vals).join }

/-- The `DoubleType` columns of the schema, in schema order (lines 26-33),
as computed by the `isinstance(..., DoubleType)` scans on lines 153 and
175. -/
def doubleColumns : List (String × (Row → Option ℚ)) :=
  [("longitude", Row.longitude), ("latitude", Row.latitude),
   ("baro_altitude", Row.baro_altitude), ("velocity", Row.velocity),
   ("true_track", Row.true_track), ("vertical_rate", Row.vertical_rate),
   ("geo_altitude", Row.geo_altitude)]

/-- `calculate_statistics` (lines 171-187): one descriptor per double
column of the batch. -/
def calculate_statistics (rows : List Row) : List (String × ColStats) :=
  doubleColumns.map (fun c => (c.1, colStats (rows.map c.2)))

/-- The dict built by `extract` for one flight, as the DataFrame row it
becomes in `createDataFrame` (line 144): every field present. -/
def toRow (f : FlightRecord) : Row where
  icao24 := Option.some f.icao24
  callsign := Option.some f.callsign
  origin_country := Option.some f.origin_country
  time_position := Option.some f.time_position
  last_contact := Option.some f.last_contact
  longitude := Option.some f.longitude
  latitude := Option.some f.latitude
  baro_altitude := Option.some f.baro_altitude
  on_ground := Option.some f.on_ground
  velocity := Option.some f.velocity
  true_track := Option.some f.true_track
  vertical_rate := Option.some f.vertical_rate
  geo_altitude := Option.some f.geo_altitude
  squawk := Option.some f.squawk
  spi := Option.some f.spi
  position_source := Option.some f.position_source
  ingestion_time := Option.some f.ingestion_time

/-- Observable milestones of one `run_pipeline` invocation. -/
inductive Event where
  | extractEv
  | transformEv
  | statsEv
  | loadEv
  | errorEv (msg : String)
  | stopSpark
deriving DecidableEq, Repr

/-- `run_pipeline` (lines 197-233) as its trace of milestones: extract;
return early on an empty batch; transform, report statistics, count; load
only when the count is positive; any raised error is printed and
re-raised; `spark.stop()` runs on every path (`finally`). `nowE` and
`nowT` are the wall-clock values at extract and transform time. -/
def run_pipeline (resp : Response) (nowE nowT : ℚ) : List Event :=
  match extract resp nowE with
  | Except.error e => [Event.extractEv, Event.errorEv e, Event.stopSpark]
  | Except.ok raw =>
    if raw.isEmpty then [Event.extractEv, Event.stopSpark]
    else
      let t := transform nowT (raw.map toRow)
      [Event.extractEv, Event.transformEv, Event.statsEv] ++
        (if 0 < t.length then [Event.loadEv] else []) ++ [Event.stopSpark]

/-- Spec-side predicate: the values Python treats as falsy, spelled out
(null, empty string, integer zero, float zero, boolean false). -/
def specFalsy (v : PyVal) : Bool :=
  v = PyVal.none || v = PyVal.str "" || v = PyVal.int 0 ||
    v = PyVal.float 0 || v = PyVal.bool false

/-!
Checked models of the coercions. The source's `except (ValueError,
TypeError)` clauses do not catch `OverflowError`, so the coercions are
not total: `float(10**400)` and `datetime.fromtimestamp(10**31)` raise
errors that escape `safe_float_convert` / `safe_timestamp_convert` and
abort extraction. The `...E` definitions below carry that error channel:
`Except.error` is an escaping (uncaught) error, `Except.ok Option.none`
a raised-but-caught `ValueError`/`TypeError`, and
`Except.ok (Option.some q)` a returned value.
-/

/-- The magnitude at which Python's `float(int)` raises OverflowError:
2^1024 is beyond every finite double (the model places the boundary
exactly there, ignoring the rounding sliver just below it). -/
def floatOverflowBound : ℚ := 2 ^ 1024

/-- Magnitude bound of the platform `time_t` (64-bit):
`datetime.fromtimestamp` raises an uncaught OverflowError at or beyond
it. -/
def timeTBound : ℚ := 2 ^ 63

/-- Epoch second of 0001-01-01 00:00:00, the smallest datetime (taken at
UTC). -/
def datetimeMinEpoch : ℚ := -62135596800

/-- Epoch second of 9999-12-31 23:59:59, the largest datetime (taken at
UTC). -/
def datetimeMaxEpoch : ℚ := 253402300799

/-- Python's `float(v)` with its error behavior: a huge integer raises
OverflowError (escaping, `.error`); `None` raises TypeError and an
unparsable string raises ValueError (both caught upstream, `.ok none`).
`float(str)` never raises OverflowError (literals rounding to infinity
return `inf`, outside the ℚ number model, see `pyParseFloat`). -/
def pyFloatE : PyVal → Except String (Option ℚ)
  | .none => Except.ok Option.none
  | .str s => Except.ok (pyParseFloat s)
  | .int n =>
      if floatOverflowBound ≤ |(n : ℚ)| then Except.error "OverflowError"
      else Except.ok (Option.some (n : ℚ))
  | .float q => Except.ok (Option.some q)
  | .bool b => Except.ok (Option.some (if b then 1 else 0))

/-- `safe_float_convert` (lines 83-90) with its full error behavior:
`None ↦ 0.0`; `ValueError`/`TypeError` caught to `0.0`; OverflowError
not in the `except` tuple, so it escapes. -/
def safe_float_convertE (value : PyVal) : Except String ℚ :=
  match value with
  | .none => Except.ok 0
  | v =>
    match pyFloatE v with
    | Except.error e => Except.error e
    | Except.ok Option.none => Except.ok 0
    | Except.ok (Option.some q) => Except.ok q

/-- `datetime.fromtimestamp` on a numeric epoch: the identity on our
representation within datetime's range; ValueError (caught upstream,
`.ok none`) when the converted date falls outside years 1..9999; an
uncaught OverflowError (`.error`) when the value does not fit the
platform `time_t` (boundaries taken at UTC on a 64-bit platform). -/
def fromtimestampE (q : ℚ) : Except String (Option ℚ) :=
  if timeTBound ≤ |q| then Except.error "OverflowError"
  else if q < datetimeMinEpoch || datetimeMaxEpoch < q then Except.ok Option.none
  else Except.ok (Option.some q)

/-- The numeric-epoch argument of `datetime.fromtimestamp` with the full
error behavior: numbers (ints, floats, bools) are range-checked by
`fromtimestampE`; anything else raises TypeError (caught upstream). -/
def pyEpochE : PyVal → Except String (Option ℚ)
  | .int n => fromtimestampE (n : ℚ)
  | .float q => fromtimestampE q
  | .bool b => fromtimestampE (if b then 1 else 0)
  | _ => Except.ok Option.none

/-- `safe_timestamp_convert` (lines 96-101) with its full error
behavior: falsy values and caught `ValueError`/`TypeError` yield
`datetime.now()`; OverflowError from `fromtimestamp` escapes. -/
def safe_timestamp_convertE (now : ℚ) (timestamp : PyVal) : Except String ℚ :=
  if truthy timestamp then
    match pyEpochE timestamp with
    | Except.error e => Except.error e
    | Except.ok Option.none => Except.ok now
    | Except.ok (Option.some q) => Except.ok q
  else Except.ok now

/-- The record construction of `extract` (lines 119-137) with the
escaping-error channel, converting the fields in source order. -/
def mkFlightE (now : ℚ) (s : StateVec) : Except String FlightRecord := do
  let tp ← safe_timestamp_convertE now (s 3)
  let lc ← safe_timestamp_convertE now (s 4)
  let lon ← safe_float_convertE (s 5)
  let lat ← safe_float_convertE (s 6)
  let baro ← safe_float_convertE (s 7)
  let vel ← safe_float_convertE (s 9)
  let tt ← safe_float_convertE (s 10)
  let vr ← safe_float_convertE (s 11)
  let geo ← safe_float_convertE (s 13)
  pure
    { icao24 := pyStr (s 0)
      callsign := if truthy (s 1) then pyStrip (pyStr (s 1)) else "UNKNOWN"
      origin_country := if truthy (s 2) then pyStr (s 2) else "UNKNOWN"
      time_position := tp
      last_contact := lc
      longitude := lon
      latitude := lat
      baro_altitude := baro
      on_ground := safe_bool_convert (s 8)
      velocity := vel
      true_track := tt
      vertical_rate := vr
      geo_altitude := geo
      squawk := if truthy (s 14) then pyStr (s 14) else "UNKNOWN"
      spi := safe_bool_convert (s 15)
      position_source := if truthy (s 16) then pyStr (s 16) else "UNKNOWN"
      ingestion_time := now }

/-- The extraction loop (lines 114-138) with the escaping-error channel:
an uncaught error from any field conversion aborts the whole loop. -/
def extractFlightsE (now : ℚ) : List StateVec → Except String (List FlightRecord)
  | [] => Except.ok []
  | s :: rest =>
    if truthy (s 0) then do
      let f ← mkFlightE now s
      let fs ← extractFlightsE now rest
      pure (f :: fs)
    else extractFlightsE now rest

/-- `extract` (lines 103-140) with the escaping-error channel: a non-200
status raises, and an uncaught OverflowError from a field conversion
also escapes — `extract` has error paths besides the status check. -/
def extractE (resp : Response) (now : ℚ) : Except String (List FlightRecord) :=
  if resp.status_code ≠ 200 then
    Except.error ("API request failed with status code: " ++ toString resp.status_code)
  else
    extractFlightsE now resp.states

/-- A state vector whose longitude position carries the JSON integer
10^400 (arbitrary-precision, as Python's `json` parses it). -/
def svHugeLongitude : StateVec := fun i =>
  if i = (5 : Fin 17) then PyVal.int (10 ^ 400) else PyVal.str "x"

/-- Concrete state vector whose every position is the integer 0. -/
def svAllZero : StateVec := fun _ => PyVal.int 0

/-- Concrete state vector with a valid identifier and an empty-string
origin country. -/
def svEmptyCountry : StateVec := fun i =>
  if i = (0 : Fin 17) then PyVal.str "abc"
  else if i = (2 : Fin 17) then PyVal.str "" else PyVal.none

/-- Concrete state vector whose every position is the string "x". -/
def svGood : StateVec := fun _ => PyVal.str "x"

/-- A concrete fully-populated DataFrame row. -/
def rowGood : Row where
  icao24 := Option.some "x"
  callsign := Option.some "c"
  origin_country := Option.some "o"
  time_position := Option.some 1
  last_contact := Option.some 1
  longitude := Option.some 0
  latitude := Option.some 0
  baro_altitude := Option.some 0
  on_ground := Option.some false
  velocity := Option.some 0
  true_track := Option.some 0
  vertical_rate := Option.some 0
  geo_altitude := Option.some 0
  squawk := Option.some "s"
  spi := Option.some false
  position_source := Option.some "p"
  ingestion_time := Option.some 2

/-- Python truthiness `truthy v` is the negation of the spelled-out falsy
predicate `specFalsy v`. -/
theorem truthy_eq_not_specFalsy (v : PyVal) : truthy v = !(specFalsy v) := by
  cases v with
  | none => rfl
  | str s =>
    by_cases h : s = ""
    · subst h
      decide
    · have he : s.isEmpty = false := by
        rw [Bool.eq_false_iff]
        intro hc
        exact h ((String.isEmpty_iff s).mp hc)
      simp [truthy, specFalsy, h, he]
  | int n => by_cases h : n = 0 <;> simp [truthy, specFalsy, h]
  | float q => by_cases h : q = 0 <;> simp [truthy, specFalsy, h]
  | bool b => cases b <;> rfl

/-- One pass of the three defaulting steps leaves every field they touch
non-null, so a second pass is the identity on the result. -/
theorem defaults_row_idem (n1 n2 : ℚ) (r : Row) :
    backfill_timestamps n2 (na_fill_numeric (na_fill_strings
      (backfill_timestamps n1 (na_fill_numeric (na_fill_strings r))))) =
    backfill_timestamps n1 (na_fill_numeric (na_fill_strings r)) := by
  simp [na_fill_strings, na_fill_numeric, backfill_timestamps]

/-- C6: the Transformer's defaulting steps are idempotent: re-applying the
string-defaulting, numeric-defaulting and timestamp-backfill steps to an
already-defaulted batch is a no-op, whatever wall-clock values the two
applications read. -/
theorem default_steps_idempotent (n1 n2 : ℚ) (data : List Row) :
    defaultSteps n2 (defaultSteps n1 data) = defaultSteps n1 data := by
  simp only [defaultSteps, List.map_map]
  exact List.map_congr_left (fun r _ => defaults_row_idem n1 n2 r)

/-- C7: `transform` is a total function (fills, coalesce and filter have
no failure path) and its output never has more records than its input. -/
theorem transform_length_le (now : ℚ) (data : List Row) :
    (transform now data).length ≤ data.length := by
  rw [transform]
  calc (List.filter validRow (defaultSteps now data)).length
      ≤ (defaultSteps now data).length := List.length_filter_le _ _
    _ = data.length := by simp [defaultSteps]

/-- C2 counterexample: the state vector whose identifier position holds
the integer 0 — neither null nor an empty string — is nevertheless
dropped by the extraction loop (`if not state[0]` tests truthiness). -/
theorem extract_drops_integer_zero_id :
    extractFlights 0 [svAllZero] = [] ∧ svAllZero 0 = PyVal.int 0 := by
  constructor <;> rfl

/-- C2 amended: extraction drops exactly the state vectors whose position
0 is falsy in Python's sense (null, empty string, integer zero, float
zero, or false), and every kept vector yields exactly one flight record. -/
theorem extract_keeps_exactly_nonfalsy (now : ℚ) (states : List StateVec) :
    extractFlights now states =
      (states.filter (fun s => !(specFalsy (s 0)))).map (mkFlight now) := by
  induction states with
  | nil => rfl
  | cons s rest ih =>
    rw [extractFlights] at ih ⊢
    rw [List.filterMap_cons, List.filter_cons]
    rw [truthy_eq_not_specFalsy]
    cases h : specFalsy (s 0) with
    | true => simpa [h] using ih
    | false => simpa [h] using ih

/-- The validity predicate of the filter step, spelled as non-nullness of
the three protected fields. -/
theorem validRow_iff (r : Row) :
    validRow r = true ↔
      (r.icao24 ≠ Option.none ∧ r.time_position ≠ Option.none ∧
        r.ingestion_time ≠ Option.none) := by
  simp [validRow, Bool.and_eq_true, Option.isSome_iff_ne_none, and_assoc]

/-- C1: every record in `transform`'s output has non-null `icao24`,
`time_position` and `ingestion_time`; the filter step keeps a defaulted
record exactly when it satisfies these three non-null conditions, so it
removes every violating record and only those. -/
theorem transform_nonnull_filter (now : ℚ) (data : List Row) :
    (∀ r ∈ transform now data,
      r.icao24 ≠ Option.none ∧ r.time_position ≠ Option.none ∧
        r.ingestion_time ≠ Option.none) ∧
    (∀ r ∈ defaultSteps now data,
      (r ∈ transform now data ↔
        (r.icao24 ≠ Option.none ∧ r.time_position ≠ Option.none ∧
          r.ingestion_time ≠ Option.none))) := by
  constructor
  · intro r hr
    rw [transform, List.mem_filter] at hr
    exact (validRow_iff r).mp hr.2
  · intro r hr
    rw [transform, List.mem_filter]
    constructor
    · intro h
      exact (validRow_iff r).mp h.2
    · intro h
      exact ⟨hr, (validRow_iff r).mpr h⟩

/-- C1 witness: a concrete transformed record with all three protected
fields non-null. -/
theorem transform_nonnull_filter_w :
    rowGood.icao24 ≠ Option.none ∧
    rowGood.time_position ≠ Option.none ∧
    rowGood.ingestion_time ≠ Option.none := by
  have ht : transform 0 [rowGood] = [rowGood] := rfl
  exact (transform_nonnull_filter 0 [rowGood]).1 rowGood
    (by rw [ht]; exact List.mem_singleton_self rowGood)

/-- C4 counterexample: an empty-string (non-null) origin country is
rewritten to "UNKNOWN" by the extraction mapping, because the source
tests truthiness (`str(state[2]) if state[2] else 'UNKNOWN'`), not
nullness. -/
theorem origin_country_empty_string_cex :
    (mkFlight 0 svEmptyCountry).origin_country = "UNKNOWN" ∧
    svEmptyCountry 2 = PyVal.str "" ∧ svEmptyCountry 2 ≠ PyVal.none := by
  refine ⟨?_, rfl, by decide⟩
  rfl

/-- C4 amended: for every kept state vector, `callsign` is the
stringified raw value trimmed of surrounding whitespace, and
`origin_country`, `squawk`, `position_source` are the stringified raw
values, each defaulted to "UNKNOWN" exactly when the corresponding raw
value is falsy (null, empty string, zero, or false). -/
theorem string_fields_default_on_falsy (now : ℚ) (s : StateVec) :
    (specFalsy (s 1) = true → (mkFlight now s).callsign = "UNKNOWN") ∧
    (specFalsy (s 1) = false → (mkFlight now s).callsign = pyStrip (pyStr (s 1))) ∧
    (specFalsy (s 2) = true → (mkFlight now s).origin_country = "UNKNOWN") ∧
    (specFalsy (s 2) = false → (mkFlight now s).origin_country = pyStr (s 2)) ∧
    (specFalsy (s 14) = true → (mkFlight now s).squawk = "UNKNOWN") ∧
    (specFalsy (s 14) = false → (mkFlight now s).squawk = pyStr (s 14)) ∧
    (specFalsy (s 16) = true → (mkFlight now s).position_source = "UNKNOWN") ∧
    (specFalsy (s 16) = false → (mkFlight now s).position_source = pyStr (s 16)) := by
  refine ⟨?_, ?_, ?_, ?_, ?_, ?_, ?_, ?_⟩ <;>
    intro h <;>
    simp [mkFlight, truthy_eq_not_specFalsy, h]

/-- C4 witness: concrete falsy and non-falsy raw values for the four
string fields. -/
theorem string_fields_default_on_falsy_w :
    (mkFlight 0 svEmptyCountry).callsign = "UNKNOWN" ∧
    (mkFlight 0 svEmptyCountry).origin_country = "UNKNOWN" ∧
    (mkFlight 0 svGood).squawk = pyStr (svGood 14) := by
  refine ⟨?_, ?_, ?_⟩
  · exact (string_fields_default_on_falsy 0 svEmptyCountry).1 (by decide)
  · exact (string_fields_default_on_falsy 0 svEmptyCountry).2.2.1 (by decide)
  · exact (string_fields_default_on_falsy 0 svGood).2.2.2.2.2.1 (by decide)

/-- C9: when `extract` yields an empty batch the pipeline stops right
after Extract — the trace is exactly extract-then-session-teardown, so
Transform, Statistics and Load are never invoked and no error is raised;
and whenever the transformed batch has zero records, Load is never
invoked. -/
theorem pipeline_short_circuits (resp : Response) (nowE nowT : ℚ) :
    (extract resp nowE = Except.ok [] →
      run_pipeline resp nowE nowT = [Event.extractEv, Event.stopSpark] ∧
      Event.transformEv ∉ run_pipeline resp nowE nowT ∧
      Event.statsEv ∉ run_pipeline resp nowE nowT ∧
      Event.loadEv ∉ run_pipeline resp nowE nowT ∧
      (∀ m : String, Event.errorEv m ∉ run_pipeline resp nowE nowT)) ∧
    (∀ raw, extract resp nowE = Except.ok raw →
      (transform nowT (raw.map toRow)).length = 0 →
      Event.loadEv ∉ run_pipeline resp nowE nowT) := by
  constructor
  · intro h
    have he : run_pipeline resp nowE nowT = [Event.extractEv, Event.stopSpark] := by
      simp [run_pipeline, h]
    refine ⟨he, ?_, ?_, ?_, ?_⟩ <;> simp [he]
  · intro raw h hc
    rw [run_pipeline, h]
    cases hr : raw.isEmpty with
    | true =>
      rw [List.isEmpty_iff] at hr
      simp [hr]
    | false => simp [hr, hc]

/-- C9 witness: a 200 response with an empty states array stops after
Extract with no load and no error. -/
theorem pipeline_short_circuits_w :
    run_pipeline ⟨200, []⟩ 0 0 = [Event.extractEv, Event.stopSpark] ∧
    Event.loadEv ∉ run_pipeline ⟨200, []⟩ 0 0 :=
  ⟨((pipeline_short_circuits ⟨200, []⟩ 0 0).1 rfl).1,
   ((pipeline_short_circuits ⟨200, []⟩ 0 0).1 rfl).2.2.2.1⟩

/-- C10: the flight record built for a kept state vector depends only on
positions other than 12 (positions 0-11 and 13-16) together with the
run's wall clock: two vectors agreeing everywhere except possibly at
position 12 extract identically, and `geo_altitude` is taken from
position 13. -/
theorem extract_ignores_position_12 (now : ℚ) (s t : StateVec) :
    ((∀ i : Fin 17, i ≠ 12 → s i = t i) →
      extractFlights now [s] = extractFlights now [t]) ∧
    (mkFlight now s).geo_altitude = safe_float_convert (s 13) := by
  refine ⟨?_, rfl⟩
  intro h
  have e : mkFlight now s = mkFlight now t := by
    rw [mkFlight, mkFlight, h 0 (by decide), h 1 (by decide), h 2 (by decide),
      h 3 (by decide), h 4 (by decide), h 5 (by decide), h 6 (by decide),
      h 7 (by decide), h 8 (by decide), h 9 (by decide), h 10 (by decide),
      h 11 (by decide), h 13 (by decide), h 14 (by decide), h 15 (by decide),
      h 16 (by decide)]
  rw [extractFlights, extractFlights]
  simp only [List.filterMap_cons, List.filterMap_nil]
  rw [h 0 (by decide), e]

/-- Concrete state vectors agreeing everywhere except at position 12. -/
def svTwelveA : StateVec := fun i =>
  if i = (12 : Fin 17) then PyVal.int 1 else PyVal.str "x"

/-- Second concrete vector differing from `svTwelveA` only at position
12. -/
def svTwelveB : StateVec := fun i =>
  if i = (12 : Fin 17) then PyVal.int 2 else PyVal.str "x"

/-- C10 witness: two concrete vectors that differ exactly at position 12
extract identically. -/
theorem extract_ignores_position_12_w :
    svTwelveA 12 ≠ svTwelveB 12 ∧
    extractFlights 0 [svTwelveA] = extractFlights 0 [svTwelveB] :=
  ⟨by decide,
   (extract_ignores_position_12 0 svTwelveA svTwelveB).1 (by decide)⟩

/-- C8: for every non-empty batch whose chosen double column is non-null
throughout (the post-transform situation), `calculate_statistics` reports
for that column: the count equal to the batch size, the mean equal to the
arithmetic mean of the column's values, the min and max equal to exact
extrema, and the mode equal to a most frequent value (under the fixed
deterministic first-occurrence tie-break); on an empty batch the mode is
null. -/
theorem calculate_statistics_correct (rows : List Row) (name : String)
    (f : Row → Option ℚ)
    (hmem : (name, f) ∈ doubleColumns)
    (hnn : ∀ r ∈ rows, f r ≠ Option.none)
    (hne : rows ≠ []) :
    (name, colStats (rows.map f)) ∈ calculate_statistics rows ∧
    (colStats (rows.map f)).count = rows.length ∧
    (colStats (rows.map f)).mean =
      Option.some ((rows.map f).reduceOption.sum /
        ((rows.map f).reduceOption.length : ℚ)) ∧
    (∃ m, (colStats (rows.map f)).min = Option.some m ∧
      m ∈ (rows.map f).reduceOption ∧
      ∀ x ∈ (rows.map f).reduceOption, m ≤ x) ∧
    (∃ M, (colStats (rows.map f)).max = Option.some M ∧
      M ∈ (rows.map f).reduceOption ∧
      ∀ x ∈ (rows.map f).reduceOption, x ≤ M) ∧
    (∃ mo, (colStats (rows.map f)).mode = Option.some mo ∧
      Option.some mo ∈ rows.map f ∧
      ∀ v ∈ rows.map f,
        (rows.map f).count v ≤ (rows.map f).count (Option.some mo)) ∧
    (colStats []).mode = Option.none := by
  have hsome : ∀ x ∈ rows.map f, x.isSome := by
    intro x hx
    rcases List.mem_map.mp hx with ⟨r, hr, hfr⟩
    exact hfr ▸ Option.isSome_iff_ne_none.mpr (hnn r hr)
  have hlen : (rows.map f).reduceOption.length = (rows.map f).length :=
    List.reduceOption_length_eq_iff.mpr hsome
  have hvne : rows.map f ≠ [] := by
    intro h
    exact hne (List.map_eq_nil_iff.mp h)
  have hrlen : (rows.map f).reduceOption.length = rows.length := by
    rw [hlen, List.length_map]
  have hrne : (rows.map f).reduceOption ≠ [] := by
    intro h
    apply hvne
    have h0 : (rows.map f).length = 0 := by
      rw [← hlen, h, List.length_nil]
    exact List.length_eq_zero.mp h0
  refine ⟨?_, ?_, ?_, ?_, ?_, ?_, rfl⟩
  · exact List.mem_map.mpr ⟨(name, f), hmem, rfl⟩
  · simpa [colStats] using hrlen
  · have hl0 : (rows.map f).reduceOption.length ≠ 0 := by
      intro h
      exact hrne (List.length_eq_zero.mp h)
    simp [colStats, hl0]
  · cases hm : (rows.map f).reduceOption.argmin id with
    | none => exact absurd (List.argmin_eq_none.mp hm) hrne
    | some m =>
      refine ⟨m, by simp [colStats, hm], List.argmin_mem hm, ?_⟩
      intro x hx
      exact List.le_of_mem_argmin hx hm
  · cases hm : (rows.map f).reduceOption.argmax id with
    | none => exact absurd (List.argmax_eq_none.mp hm) hrne
    | some M =>
      refine ⟨M, by simp [colStats, hm], List.argmax_mem hm, ?_⟩
      intro x hx
      exact List.le_of_mem_argmax hx hm
  · cases hk : (rows.map f).argmax (fun v => (rows.map f).count v) with
    | none => exact absurd (List.argmax_eq_none.mp hk) hvne
    | some k =>
      have hkmem : k ∈ rows.map f := List.argmax_mem hk
      rcases Option.isSome_iff_exists.mp (hsome k hkmem) with ⟨mo, hmo⟩
      refine ⟨mo, ?_, hmo ▸ hkmem, ?_⟩
      · simp [colStats, modeKey, hk, hmo]
      · intro v hv
        have := List.le_of_mem_argmax hv hk
        simpa [hmo] using this

/-- A row whose longitude carries a given value. -/
def rowL (q : ℚ) : Row :=
  { rowGood with longitude := Option.some q }

/-- The three-record batch with longitudes 10, 20, 10. -/
def rows3 : List Row := [rowL 10, rowL 20, rowL 10]

/-- C8 witness: the longitude statistics of a concrete three-record
batch. -/
theorem calculate_statistics_correct_w :
    ("longitude", colStats (rows3.map Row.longitude)) ∈
      calculate_statistics rows3 ∧
    (colStats (rows3.map Row.longitude)).count = rows3.length := by
  have h := calculate_statistics_correct rows3 "longitude" Row.longitude
    (List.Mem.head _) (by decide) (by decide)
  exact ⟨h.1, h.2.1⟩

/-- Bind on a successful `Except` computation just continues. -/
theorem except_bind_ok {e a b : Type} (x : a) (f : a → Except e b) :
    (Except.ok x : Except e a) >>= f = f x := rfl

/-- Bind on a failed `Except` computation propagates the error. -/
theorem except_bind_error {e a b : Type} (m : e) (f : a → Except e b) :
    (Except.error m : Except e a) >>= f = Except.error m := rfl

/-- On inputs whose conversion raises no uncaught error — every integer
below the overflow bound — the checked `safe_float_convertE` returns
exactly the in-range fragment `safe_float_convert`. -/
theorem safe_float_convertE_agrees (v : PyVal)
    (h : ∀ n : Int, v = PyVal.int n → |(n : ℚ)| < floatOverflowBound) :
    safe_float_convertE v = Except.ok (safe_float_convert v) := by
  cases v with
  | none => rfl
  | str s =>
    simp [safe_float_convertE, pyFloatE, safe_float_convert, pyFloat]
    cases pyParseFloat s <;> simp
  | int n =>
    have hn := h n rfl
    simp [safe_float_convertE, pyFloatE, safe_float_convert, pyFloat, not_le.mpr hn]
  | float q => rfl
  | bool b => cases b <;> rfl

/-- On epochs within datetime's representable range the checked
`safe_timestamp_convertE` returns exactly the in-range fragment
`safe_timestamp_convert`. -/
theorem safe_timestamp_convertE_agrees (now : ℚ) (v : PyVal)
    (h : ∀ q : ℚ, pyEpoch v = Option.some q →
      |q| < timeTBound ∧ datetimeMinEpoch ≤ q ∧ q ≤ datetimeMaxEpoch) :
    safe_timestamp_convertE now v = Except.ok (safe_timestamp_convert now v) := by
  by_cases ht : truthy v = true
  · cases v with
    | none => simp [truthy] at ht
    | str s => simp [safe_timestamp_convertE, safe_timestamp_convert, pyEpochE, pyEpoch, ht]
    | int n =>
      rcases h (n : ℚ) rfl with ⟨h1, h2, h3⟩
      simp [safe_timestamp_convertE, safe_timestamp_convert, pyEpochE, pyEpoch,
        fromtimestampE, ht, not_le.mpr h1, not_lt.mpr h2, not_lt.mpr h3]
    | float q =>
      rcases h q rfl with ⟨h1, h2, h3⟩
      simp [safe_timestamp_convertE, safe_timestamp_convert, pyEpochE, pyEpoch,
        fromtimestampE, ht, not_le.mpr h1, not_lt.mpr h2, not_lt.mpr h3]
    | bool b =>
      rcases h (if b then 1 else 0) rfl with ⟨h1, h2, h3⟩
      simp [safe_timestamp_convertE, safe_timestamp_convert, pyEpochE, pyEpoch,
        fromtimestampE, ht, not_le.mpr h1, not_lt.mpr h2, not_lt.mpr h3]
  · simp [safe_timestamp_convertE, safe_timestamp_convert, ht]

/-- C3: the code evaluated at the failing inputs. The claim — every
scalar input yields a value (0.0 for null/unparsable, the parsed value
otherwise; now for falsy/unconvertible epochs, the converted epoch
otherwise) — matches the functions' own "Safely convert" docstrings, but
the code's `except (ValueError, TypeError)` misses OverflowError:
`float(10**400)` and `fromtimestamp(10**31)` raise errors that escape
instead of returning anything. Within range the claimed mapping does
hold: an out-of-datetime-range epoch (10^12) raises a caught ValueError
and yields now, and `float('1e3')` parses to exactly 1000. -/
theorem coercion_overflow_escapes :
    safe_float_convertE (PyVal.int (10 ^ 400)) = Except.error "OverflowError" ∧
    safe_timestamp_convertE 0 (PyVal.int (10 ^ 31)) = Except.error "OverflowError" ∧
    safe_timestamp_convertE 0 (PyVal.int (10 ^ 12)) = Except.ok 0 ∧
    safe_float_convertE (PyVal.str "1e3") = Except.ok 1000 := by
  refine ⟨?_, ?_, ?_, ?_⟩
  · norm_num [safe_float_convertE, pyFloatE, floatOverflowBound]
  · norm_num [safe_timestamp_convertE, pyEpochE, fromtimestampE, truthy, timeTBound]
  · norm_num [safe_timestamp_convertE, pyEpochE, fromtimestampE, truthy, timeTBound,
      datetimeMinEpoch, datetimeMaxEpoch]
  · have h : pyParseFloat "1e3" = Option.some 1000 := by
      simp [pyParseFloat, stripChars, parseUnsignedPyFloat, splitAtChar, parseMantissa,
        parseExp, validDigitsU, digitsToNat]
      norm_num
    simp [safe_float_convertE, pyFloatE, h]

/-- C5: the code evaluated at the failing input. The claim — extraction
errors exactly on a non-success HTTP status, the coercions being total —
is the intent of the `except` clauses and the spec, but a 200 response
whose states carry the JSON integer 10^400 at a float position makes
`extract` raise an uncaught OverflowError; a non-200 status still
errors with the status message. -/
theorem extract_overflow_escapes :
    extractE ⟨200, [svHugeLongitude]⟩ 0 = Except.error "OverflowError" ∧
    extractE ⟨404, []⟩ 0 =
      Except.error "API request failed with status code: 404" := by
  constructor
  · have htp : safe_timestamp_convertE (0 : ℚ) (PyVal.str "x") = Except.ok 0 := by
      simp [safe_timestamp_convertE, pyEpochE, truthy]
    have hlon : safe_float_convertE (PyVal.int (10 ^ 400)) = Except.error "OverflowError" := by
      norm_num [safe_float_convertE, pyFloatE, floatOverflowBound]
    have h3 : svHugeLongitude 3 = PyVal.str "x" := by decide
    have h4 : svHugeLongitude 4 = PyVal.str "x" := by decide
    have h5 : svHugeLongitude 5 = PyVal.int (10 ^ 400) := rfl
    have htr : truthy (svHugeLongitude 0) = true := by decide
    have hm : mkFlightE 0 svHugeLongitude = Except.error "OverflowError" := by
      rw [mkFlightE, h3, h4, h5, htp, except_bind_ok, except_bind_ok, hlon,
        except_bind_error]
    have hfl : extractFlightsE 0 [svHugeLongitude] = Except.error "OverflowError" := by
      rw [extractFlightsE, htr, if_pos rfl, hm, except_bind_error]
    rw [extractE, if_neg (by decide)]
    exact hfl
  · rw [extractE, if_pos (by decide)]
    rfl
